import Mathlib

/-!
Verification of the k8s-AppController resource adapters against their
natural-language specification.

The Go sources under `pkg/resources` are embedded shallowly:

* Kubernetes API objects become Lean structures carrying exactly the fields
  the adapters inspect (`ObjectMeta`, the spec fields compared by
  `EqualToDefinition`, and the status fields read by the status functions).
  Remaining payload is kept as an opaque `String` field so that structural
  equality (`reflect.DeepEqual`) is still meaningful.
* The dependency-injected clients become records of pure functions returning
  `Except Err` values; every remote call an adapter makes is additionally
  recorded in an explicit `ClusterOp` trace, so that read-only behaviour is
  a provable statement rather than a convention.
* Go `int32` replica counters are modelled as `Int`; the adapters multiply a
  replica count by 100 at most, far below the `int32` range for any realistic
  replica count, so two's-complement wrap-around is not modelled.  Go integer
  division truncates toward zero and panics on a zero divisor; it is embedded
  as `goDiv` returning `Option Int`, with `none` marking the runtime panic.
* Helpers that live in this repository but outside the provided sources
  (`checkExistence`, `createExistingResource`, `getPercentage`,
  `resourceListStatus`, `report.ErrorReport`) are modelled from the spec; each
  such definition carries a doc comment starting `Modelled from the spec:`.
-/

/-- Errors are carried as strings; `none` in an `Option Err` position is Go's
`nil` error. -/
abbrev Err := String

/-- Metadata maps (`map[string]string` in Go) are association lists. -/
abbrev MetaMap := List (String × String)

/-- First-match association-list lookup, the embedding of a Go map read. -/
def lookupMeta : MetaMap → String → Option String
  | [], _ => none
  | (k, v) :: rest, key => if k = key then some v else lookupMeta rest key

/-- Embedding of `interfaces.ResourceStatus`. -/
inductive ResourceStatus
  | Ready
  | NotReady
  | Error
  | WaitingForUpgrade
deriving DecidableEq, Repr

/-- The string value of `interfaces.ResourceWaitingForUpgrade`, used by the
adapters as the message of the drift error. -/
def waitingForUpgradeText : String := "waiting for upgrade"

/-- One remote call against the cluster API, as recorded by the embedding. -/
inductive ClusterOp
  | getOp (kind name : String)
  | listOp (kind selector : String)
  | createOp (kind name : String)
  | deleteOp (kind name : String)
  | updateOp (kind name : String)
deriving DecidableEq, Repr

/-- A cluster operation is a read when it fetches state without mutating it. -/
def ClusterOp.isRead : ClusterOp → Bool
  | .getOp _ _ => true
  | .listOp _ _ => true
  | _ => false

/-- A cluster operation is mutating when it is not a read. -/
def ClusterOp.isMutating (op : ClusterOp) : Bool := !op.isRead

/-- Resource kind strings used in keys and traces. -/
def kindDeployment : String := "deployment"

def kindService : String := "service"

def kindReplicaSet : String := "replicaset"

def kindConfigMap : String := "configmap"

def kindPersistentVolumeClaim : String := "persistentvolumeclaim"

/-- Go integer division: truncation toward zero, runtime panic (modelled as
`none`) on a zero divisor. -/
def goDiv (a b : Int) : Option Int :=
  if b = 0 then none else some (a.tdiv b)

/-- The fields of `ObjectMeta` the adapters compare and read. -/
structure ObjectMeta where
  name : String
  labels : List (String × String)
deriving DecidableEq, Repr

/-- Decimal digit value of a character, `none` for a non-digit. -/
def digitVal (c : Char) : Option Nat :=
  if 48 ≤ c.toNat ∧ c.toNat ≤ 57 then some (c.toNat - 48) else none

/-- Accumulating decimal parser over a character list. -/
def parseDecimalAux : List Char → Nat → Option Nat
  | [], acc => some acc
  | c :: cs, acc =>
    match digitVal c with
    | none => none
    | some d => parseDecimalAux cs (acc * 10 + d)

/-- Parse a non-empty all-digit string as a natural number. -/
def parseDecimal (s : String) : Option Nat :=
  match s.data with
  | [] => none
  | l => parseDecimalAux l 0

/-- Embedding of `resources.SuccessFactorKey`. -/
def successFactorKey : String := "success_factor"

/-- Modelled from the spec: the repository's `getPercentage` helper is not
among the provided sources.  Per the spec, node metadata may carry a required
percentage for partial readiness; a missing entry defaults to full readiness
(100), and "a required-percentage that cannot be parsed" is "treated as an
`Error`", not a silent pass-through. -/
def getPercentage (key : String) (meta : MetaMap) : Except Err Int :=
  match lookupMeta meta key with
  | none => .ok 100
  | some s =>
    match parseDecimal s with
    | some n => .ok (n : Int)
    | none => .error ("cannot parse percentage " ++ s)

/-- The replica-set fields the adapter reads: `ObjectMeta`, `Spec.Replicas`
(dereferenced pointer), `Status.Replicas`, and the rest of the spec payload
kept opaque for `reflect.DeepEqual`. -/
structure ReplicaSetObj where
  meta : ObjectMeta
  specReplicas : Int
  statusReplicas : Int
  specRest : String
deriving DecidableEq, Repr

/-- Embedding of `resources.replicaSetStatus`: not ready iff
`rs.Status.Replicas*100 < *rs.Spec.Replicas*successFactor`. -/
def replicaSetStatus (rs : ReplicaSetObj) (meta : MetaMap) :
    ResourceStatus × Option Err :=
  match getPercentage successFactorKey meta with
  | .error e => (ResourceStatus.Error, some e)
  | .ok successFactor =>
    if rs.statusReplicas * 100 < rs.specReplicas * successFactor then
      (ResourceStatus.NotReady, none)
    else
      (ResourceStatus.Ready, none)

/-- Embedding of `interfaces.DependencyReport`. -/
structure DependencyReport where
  dependency : String
  blocks : Bool
  percentage : Int
  needed : Int
  message : String
deriving DecidableEq, Repr

/-- Modelled from the spec: `report.ErrorReport` is not among the provided
sources.  Per the spec, an error on the edge's evaluation is "treated as an
`Error` on the edge's evaluation, not a silent pass-through", so the resulting
report blocks and carries the error message. -/
def errorReport (name : String) (err : Err) : DependencyReport :=
  { dependency := name
    blocks := true
    percentage := 0
    needed := 0
    message := err }

/-- The `fmt.Sprintf` message of `replicaSetReport`:
`"%d of %d replicas up (%d %%, needed %d%%)"`. -/
def replicaSetMessage (statusReplicas specReplicas percentage needed : Int) :
    String :=
  toString statusReplicas ++ " of " ++ toString specReplicas ++
    " replicas up (" ++ toString percentage ++ " %, needed " ++
    toString needed ++ "%)"

/-- Embedding of `resources.replicaSetReport`, verbatim: it fetches the replica
set, reads the success factor, computes
`percentage := *rs.Spec.Replicas * 100 / rs.Status.Replicas` (a Go division
that panics when `Status.Replicas` is zero, hence the `Option` result), and
returns a report with `Blocks: false` in both branches of the
`percentage >= successFactor` test, exactly as the source does. -/
def replicaSetReport (get : String → Except Err ReplicaSetObj) (name : String)
    (meta : MetaMap) : Option DependencyReport :=
  match get name with
  | .error e => some (errorReport name e)
  | .ok rs =>
    match getPercentage successFactorKey meta with
    | .error e => some (errorReport name e)
    | .ok successFactor =>
      match goDiv (rs.specReplicas * 100) rs.statusReplicas with
      | none => none
      | some percentage =>
        let message :=
          replicaSetMessage rs.statusReplicas rs.specReplicas percentage
            successFactor
        if percentage ≥ successFactor then
          some
            { dependency := name
              blocks := false
              percentage := percentage
              needed := successFactor
              message := message }
        else
          some
            { dependency := name
              blocks := false
              percentage := percentage
              needed := successFactor
              message := message }

/-- The deployment fields the adapter reads: `ObjectMeta`, `Spec.Replicas`
(dereferenced), the rest of the spec payload (opaque), and the status replica
counters compared by `deploymentStatus`. -/
structure DeploymentObj where
  meta : ObjectMeta
  specReplicas : Int
  specRest : String
  updatedReplicas : Int
  availableReplicas : Int
deriving DecidableEq, Repr

/-- The dependency-injected `v1beta1.DeploymentInterface`: responses of the
remote API to `Get` and `Create` calls. -/
structure DeploymentClient where
  getResult : String → Except Err DeploymentObj
  createResult : DeploymentObj → Except Err DeploymentObj

/-- Embedding of `resources.Deployment`: the managed adapter, holding the declared object
and its client. -/
structure Deployment where
  deployment : DeploymentObj
  client : DeploymentClient

/-- Embedding of `resources.deploymentStatus`: ready iff both `UpdatedReplicas` and
`AvailableReplicas` have reached `*Spec.Replicas`. -/
def deploymentStatus (d : DeploymentObj) : ResourceStatus × Option Err :=
  if d.updatedReplicas ≥ d.specReplicas ∧ d.availableReplicas ≥ d.specReplicas
  then (ResourceStatus.Ready, none)
  else (ResourceStatus.NotReady, none)

/-- Embedding of `Deployment.EqualToDefinition`: `reflect.DeepEqual` on `ObjectMeta` and on
`Spec` against the declared object. -/
def Deployment.EqualToDefinition (d : Deployment) (live : DeploymentObj) :
    Bool :=
  decide (live.meta = d.deployment.meta ∧
    live.specReplicas = d.deployment.specReplicas ∧
    live.specRest = d.deployment.specRest)

/-- Embedding of `Deployment.Status`, with the trace of remote calls it issues: `Get`, then
either the fetch error, the drift branch (`WaitingForUpgrade` with a non-nil
error), or `deploymentStatus` of the live object. -/
def Deployment.Status (d : Deployment) (_meta : MetaMap) :
    (ResourceStatus × Option Err) × List ClusterOp :=
  match d.client.getResult d.deployment.meta.name with
  | .error e =>
    ((ResourceStatus.Error, some e),
      [ClusterOp.getOp kindDeployment d.deployment.meta.name])
  | .ok live =>
    if d.EqualToDefinition live = false then
      ((ResourceStatus.WaitingForUpgrade, some waitingForUpgradeText),
        [ClusterOp.getOp kindDeployment d.deployment.meta.name])
    else
      (deploymentStatus live,
        [ClusterOp.getOp kindDeployment d.deployment.meta.name])

/-- Embedding of `Deployment.Create`, exactly as written: it calls `Status(nil)`,
logs a "skipping" message when the status call returned no error, and then,
with no early return, unconditionally calls `Client.Create` and returns that
call's error. -/
def Deployment.Create (d : Deployment) : Option Err × List ClusterOp :=
  let statusRun := d.Status []
  match d.client.createResult d.deployment with
  | .error e =>
    (some e,
      statusRun.2 ++ [ClusterOp.createOp kindDeployment d.deployment.meta.name])
  | .ok _ =>
    (none,
      statusRun.2 ++ [ClusterOp.createOp kindDeployment d.deployment.meta.name])

/-- Embedding of `resources.ExistingDeployment`: the pre-existing variant, holding only a
name and a client. -/
structure ExistingDeployment where
  name : String
  client : DeploymentClient

/-- Embedding of `ExistingDeployment.Status`: `Get`, then `deploymentStatus` of the live
object — with no drift check, since this variant has no declared object. -/
def ExistingDeployment.Status (d : ExistingDeployment) (_meta : MetaMap) :
    (ResourceStatus × Option Err) × List ClusterOp :=
  match d.client.getResult d.name with
  | .error e =>
    ((ResourceStatus.Error, some e), [ClusterOp.getOp kindDeployment d.name])
  | .ok live =>
    (deploymentStatus live, [ClusterOp.getOp kindDeployment d.name])

/-- The error value of `errors.New("Deployment not found")`. -/
def deploymentNotFoundErr : Err := "Deployment not found"

/-- Embedding of `ExistingDeployment.Create`: calls `Status(nil)`; when that returned no
error the deployment was found and `nil` is returned; otherwise the source
logs fatally and returns `errors.New("Deployment not found")`.  No create call
is ever issued. -/
def ExistingDeployment.Create (d : ExistingDeployment) :
    Option Err × List ClusterOp :=
  let statusRun := d.Status []
  match statusRun.1.2 with
  | none => (none, statusRun.2)
  | some _ => (some deploymentNotFoundErr, statusRun.2)

/-- The dependency-injected `v1beta1.ReplicaSetInterface`. -/
structure ReplicaSetClient where
  getResult : String → Except Err ReplicaSetObj
  createResult : ReplicaSetObj → Except Err ReplicaSetObj

/-- Embedding of `resources.ReplicaSet`: the managed adapter. -/
structure ReplicaSet where
  replicaSet : ReplicaSetObj
  client : ReplicaSetClient

/-- Embedding of `ReplicaSet.EqualToDefinition`: `reflect.DeepEqual` on `ObjectMeta` and on
`Spec` against the declared object (`Status.Replicas` is not compared). -/
def ReplicaSet.EqualToDefinition (r : ReplicaSet) (live : ReplicaSetObj) :
    Bool :=
  decide (live.meta = r.replicaSet.meta ∧
    live.specReplicas = r.replicaSet.specReplicas ∧
    live.specRest = r.replicaSet.specRest)

/-- Embedding of `ReplicaSet.Status`, with its trace: `Get`, then the drift check, then
`replicaSetStatus` of the live object under the given metadata. -/
def ReplicaSet.Status (r : ReplicaSet) (meta : MetaMap) :
    (ResourceStatus × Option Err) × List ClusterOp :=
  match r.client.getResult r.replicaSet.meta.name with
  | .error e =>
    ((ResourceStatus.Error, some e),
      [ClusterOp.getOp kindReplicaSet r.replicaSet.meta.name])
  | .ok live =>
    if r.EqualToDefinition live = false then
      ((ResourceStatus.WaitingForUpgrade, some waitingForUpgradeText),
        [ClusterOp.getOp kindReplicaSet r.replicaSet.meta.name])
    else
      (replicaSetStatus live meta,
        [ClusterOp.getOp kindReplicaSet r.replicaSet.meta.name])

/-- Embedding of `ReplicaSet.StatusIsCacheable`: false exactly when the metadata contains
the success-factor key. -/
def ReplicaSet.StatusIsCacheable (_r : ReplicaSet) (meta : MetaMap) : Bool :=
  !(lookupMeta meta successFactorKey).isSome

/-- The config-map fields the adapter reads: `ObjectMeta` and `Data`. -/
structure ConfigMapObj where
  meta : ObjectMeta
  data : List (String × String)
deriving DecidableEq, Repr

/-- The dependency-injected `corev1.ConfigMapInterface`. -/
structure ConfigMapClient where
  getResult : String → Except Err ConfigMapObj
  createResult : ConfigMapObj → Except Err ConfigMapObj

/-- Embedding of `resources.ConfigMap`: the managed adapter. -/
structure ConfigMap where
  configMap : ConfigMapObj
  client : ConfigMapClient

/-- Embedding of `ConfigMap.EqualToDefinition`: `reflect.DeepEqual` on `Data` and on
`ObjectMeta` against the declared object. -/
def ConfigMap.EqualToDefinition (c : ConfigMap) (live : ConfigMapObj) : Bool :=
  decide (live.data = c.configMap.data ∧ live.meta = c.configMap.meta)

/-- Embedding of `ConfigMap.Status`, with its trace: `Get`, then the drift check, then
`Ready` (a config map has no readiness condition of its own). -/
def ConfigMap.Status (c : ConfigMap) (_meta : MetaMap) :
    (ResourceStatus × Option Err) × List ClusterOp :=
  match c.client.getResult c.configMap.meta.name with
  | .error e =>
    ((ResourceStatus.Error, some e),
      [ClusterOp.getOp kindConfigMap c.configMap.meta.name])
  | .ok live =>
    if c.EqualToDefinition live = false then
      ((ResourceStatus.WaitingForUpgrade, some waitingForUpgradeText),
        [ClusterOp.getOp kindConfigMap c.configMap.meta.name])
    else
      ((ResourceStatus.Ready, none),
        [ClusterOp.getOp kindConfigMap c.configMap.meta.name])

/-- Embedding of `resources.ExistingConfigMap`. -/
structure ExistingConfigMap where
  name : String
  client : ConfigMapClient

/-- Embedding of `ExistingConfigMap.Status`: `Get`, then `Ready`; the fetched object is
discarded. -/
def ExistingConfigMap.Status (c : ExistingConfigMap) (_meta : MetaMap) :
    (ResourceStatus × Option Err) × List ClusterOp :=
  match c.client.getResult c.name with
  | .error e =>
    ((ResourceStatus.Error, some e), [ClusterOp.getOp kindConfigMap c.name])
  | .ok _ =>
    ((ResourceStatus.Ready, none), [ClusterOp.getOp kindConfigMap c.name])

/-- The error value returned for a missing pre-existing resource. -/
def resourceNotFoundErr : Err := "Resource not found"

/-- Modelled from the spec: `createExistingResource` is not among the provided
sources.  Per the spec, "creation of a pre-existing (externally managed)
resource is a read-only existence check, not a mutation: if the object is
absent, the node fails immediately and fatally"; the check queries the
resource's own status and succeeds exactly when that query returns no
error. -/
def ExistingConfigMap.Create (c : ExistingConfigMap) :
    Option Err × List ClusterOp :=
  let statusRun := c.Status []
  match statusRun.1.2 with
  | none => (none, statusRun.2)
  | some _ => (some resourceNotFoundErr, statusRun.2)

/-- Embedding of `v1.PersistentVolumeClaimPhase`. -/
inductive ClaimPhase
  | pending
  | bound
  | lost
deriving DecidableEq, Repr

/-- The claim fields the adapter reads: `ObjectMeta`, the spec payload
(opaque), and `Status.Phase`. -/
structure PersistentVolumeClaimObj where
  meta : ObjectMeta
  specRest : String
  phase : ClaimPhase
deriving DecidableEq, Repr

/-- The dependency-injected `corev1.PersistentVolumeClaimInterface`. -/
structure PersistentVolumeClaimClient where
  getResult : String → Except Err PersistentVolumeClaimObj
  createResult :
    PersistentVolumeClaimObj → Except Err PersistentVolumeClaimObj

/-- Embedding of `resources.PersistentVolumeClaim`: the managed adapter. -/
structure PersistentVolumeClaim where
  persistentVolumeClaim : PersistentVolumeClaimObj
  client : PersistentVolumeClaimClient

/-- Embedding of `resources.persistentVolumeClaimStatus`: ready iff the claim phase is
`ClaimBound`. -/
def persistentVolumeClaimStatus (pvc : PersistentVolumeClaimObj) :
    ResourceStatus × Option Err :=
  if pvc.phase = ClaimPhase.bound then (ResourceStatus.Ready, none)
  else (ResourceStatus.NotReady, none)

/-- Embedding of `PersistentVolumeClaim.EqualToDefinition`: `reflect.DeepEqual` on
`ObjectMeta` and on `Spec` against the declared object. -/
def PersistentVolumeClaim.EqualToDefinition (p : PersistentVolumeClaim)
    (live : PersistentVolumeClaimObj) : Bool :=
  decide (live.meta = p.persistentVolumeClaim.meta ∧
    live.specRest = p.persistentVolumeClaim.specRest)

/-- Embedding of `PersistentVolumeClaim.Status`, with its trace: `Get`, then the drift
check, then `persistentVolumeClaimStatus` of the live object. -/
def PersistentVolumeClaim.Status (p : PersistentVolumeClaim)
    (_meta : MetaMap) : (ResourceStatus × Option Err) × List ClusterOp :=
  match p.client.getResult p.persistentVolumeClaim.meta.name with
  | .error e =>
    ((ResourceStatus.Error, some e),
      [ClusterOp.getOp kindPersistentVolumeClaim
        p.persistentVolumeClaim.meta.name])
  | .ok live =>
    if p.EqualToDefinition live = false then
      ((ResourceStatus.WaitingForUpgrade, some waitingForUpgradeText),
        [ClusterOp.getOp kindPersistentVolumeClaim
          p.persistentVolumeClaim.meta.name])
    else
      (persistentVolumeClaimStatus live,
        [ClusterOp.getOp kindPersistentVolumeClaim
          p.persistentVolumeClaim.meta.name])

/-- One object selected by a service's label selector and wrapped as a
resource by `serviceStatus` (`NewPod`, `NewJob`, `NewReplicaSet`,
`NewStatefulSet`, `NewPetSet`).  The wrapped kinds' own status logic lives
outside the provided sources; per the spec's resource contract,
`status(metadata)` is a read-only query of the object, so an item carries its
kind, its name and the outcome that query would produce. -/
structure SubResource where
  kind : String
  name : String
  result : ResourceStatus × Option Err
deriving DecidableEq, Repr

/-- The key `kind/name` of a wrapped resource. -/
def SubResource.key (r : SubResource) : String := r.kind ++ "/" ++ r.name

/-- Modelled from the spec: `resourceListStatus` is not among the provided
sources.  It queries the status of each wrapped resource in turn (each query a
read); a query error yields `Error` with that error, a non-`Ready` status
yields `NotReady` with an error naming the resource, and an empty remainder
yields `Ready`. -/
def resourceListStatus :
    List SubResource → (ResourceStatus × Option Err) × List ClusterOp
  | [] => ((ResourceStatus.Ready, none), [])
  | r :: rest =>
    match r.result with
    | (_, some e) =>
      ((ResourceStatus.Error, some e), [ClusterOp.getOp r.kind r.name])
    | (st, none) =>
      if st = ResourceStatus.Ready then
        let restRun := resourceListStatus rest
        (restRun.1, ClusterOp.getOp r.kind r.name :: restRun.2)
      else
        ((ResourceStatus.NotReady,
            some ("Resource " ++ r.key ++ " is not ready")),
          [ClusterOp.getOp r.kind r.name])

/-- Kind strings of the object lists `serviceStatus` fetches. -/
def kindPod : String := "pod"

def kindJob : String := "job"

def kindStatefulSet : String := "statefulset"

def kindPetSet : String := "petset"

/-- The dependency-injected `client.Interface` as `serviceStatus` uses it:
label-selector parsing (`labels.Parse`, a local library call that can fail),
the list calls per kind, and the `IsEnabled` switch between stateful sets and
pet sets. -/
structure APIClient where
  parseSelector : String → Except Err String
  podsList : String → Except Err (List SubResource)
  jobsList : String → Except Err (List SubResource)
  replicaSetsList : String → Except Err (List SubResource)
  statefulSetsEnabled : Bool
  statefulSetsList : String → Except Err (List SubResource)
  petSetsList : String → Except Err (List SubResource)

/-- The body of `serviceStatus`'s loop over the selector entries: for each
`k,v` the selector `k=v` is parsed, pods, jobs and replica sets matching it
are listed, stateful sets or pet sets are listed depending on `IsEnabled`,
and `resourceListStatus` of all the wrapped objects is consulted; the loop
stops at the first entry whose combined status is not `Ready` or whose check
errored, and yields `Ready` after the last entry. -/
def serviceStatusLoop (api : APIClient) :
    List (String × String) → (ResourceStatus × Option Err) × List ClusterOp
  | [] => ((ResourceStatus.Ready, none), [])
  | (k, v) :: rest =>
    match api.parseSelector (k ++ "=" ++ v) with
    | .error e => ((ResourceStatus.Error, some e), [])
    | .ok sel =>
      match api.podsList sel with
      | .error e =>
        ((ResourceStatus.Error, some e), [ClusterOp.listOp kindPod sel])
      | .ok pods =>
        match api.jobsList sel with
        | .error e =>
          ((ResourceStatus.Error, some e),
            [ClusterOp.listOp kindPod sel, ClusterOp.listOp kindJob sel])
        | .ok jobs =>
          match api.replicaSetsList sel with
          | .error e =>
            ((ResourceStatus.Error, some e),
              [ClusterOp.listOp kindPod sel, ClusterOp.listOp kindJob sel,
                ClusterOp.listOp kindReplicaSet sel])
          | .ok replicasets =>
            let extraKind :=
              if api.statefulSetsEnabled then kindStatefulSet else kindPetSet
            let extraResult :=
              if api.statefulSetsEnabled then api.statefulSetsList sel
              else api.petSetsList sel
            let listOps :=
              [ClusterOp.listOp kindPod sel, ClusterOp.listOp kindJob sel,
                ClusterOp.listOp kindReplicaSet sel,
                ClusterOp.listOp extraKind sel]
            match extraResult with
            | .error e => ((ResourceStatus.Error, some e), listOps)
            | .ok extras =>
              let listRun :=
                resourceListStatus (pods ++ jobs ++ replicasets ++ extras)
              if listRun.1.1 ≠ ResourceStatus.Ready ∨ listRun.1.2 ≠ none then
                (listRun.1, listOps ++ listRun.2)
              else
                let restRun := serviceStatusLoop api rest
                (restRun.1, listOps ++ listRun.2 ++ restRun.2)

/-- The service fields the adapter reads: `ObjectMeta`, `Spec.Selector`, and
the rest of the spec payload kept opaque for `reflect.DeepEqual`. -/
structure ServiceObj where
  meta : ObjectMeta
  selector : List (String × String)
  specRest : String
deriving DecidableEq, Repr

/-- Embedding of `resources.serviceStatus`: the readiness of a service is the combined
readiness of every object matched by its label selector. -/
def serviceStatus (service : ServiceObj) (api : APIClient) :
    (ResourceStatus × Option Err) × List ClusterOp :=
  serviceStatusLoop api service.selector

/-- The dependency-injected `corev1.ServiceInterface`. -/
structure ServiceClient where
  getResult : String → Except Err ServiceObj
  createResult : ServiceObj → Except Err ServiceObj

/-- Embedding of `resources.Service`: the managed adapter, holding the declared object,
its typed client and the shared API client used for the selector checks. -/
structure Service where
  service : ServiceObj
  client : ServiceClient
  apiClient : APIClient

/-- Embedding of `Service.EqualToDefinition`: `reflect.DeepEqual` on `ObjectMeta` and on
`Spec` against the declared object. -/
def Service.EqualToDefinition (s : Service) (live : ServiceObj) : Bool :=
  decide (live.meta = s.service.meta ∧
    live.selector = s.service.selector ∧
    live.specRest = s.service.specRest)

/-- Embedding of `Service.Status`, with its trace: `Get`, then the drift check, then
`serviceStatus` of the fetched object. -/
def Service.Status (s : Service) (_meta : MetaMap) :
    (ResourceStatus × Option Err) × List ClusterOp :=
  match s.client.getResult s.service.meta.name with
  | .error e =>
    ((ResourceStatus.Error, some e),
      [ClusterOp.getOp kindService s.service.meta.name])
  | .ok live =>
    if s.EqualToDefinition live = false then
      ((ResourceStatus.WaitingForUpgrade, some waitingForUpgradeText),
        [ClusterOp.getOp kindService s.service.meta.name])
    else
      let run := serviceStatus live s.apiClient
      (run.1, ClusterOp.getOp kindService s.service.meta.name :: run.2)

/-- Embedding of `Service.StatusIsCacheable`: always false — the status depends on a live
label selection and must be re-queried on every request. -/
def Service.StatusIsCacheable (_s : Service) (_meta : MetaMap) : Bool := false

/-- Modelled from the spec: `checkExistence` is not among the provided
sources.  Per the spec, `create()` "must itself verify whether an equivalent
object already exists before issuing a mutating call"; the check queries the
resource's own status with nil metadata and succeeds exactly when that query
returns no error. -/
def checkExistenceService (s : Service) : Option Err × List ClusterOp :=
  let statusRun := s.Status []
  (statusRun.1.2, statusRun.2)

/-- Embedding of `Service.Create`: when `checkExistence` fails (the object is absent or the
status check errored) the service is created and the create call's error
returned; when it succeeds, `nil` is returned with no create call. -/
def Service.Create (s : Service) : Option Err × List ClusterOp :=
  match checkExistenceService s with
  | (some _, ops) =>
    match s.client.createResult s.service with
    | .error e =>
      (some e, ops ++ [ClusterOp.createOp kindService s.service.meta.name])
    | .ok _ =>
      (none, ops ++ [ClusterOp.createOp kindService s.service.meta.name])
  | (none, ops) => (none, ops)

/-- Whether a remote call succeeded (Go: its error is `nil`). -/
def isOkResult : Except Err α → Bool
  | .ok _ => true
  | .error _ => false

/-- The percentage formula as the specification states it:
`min(observed, desired) * 100 / desired` truncated toward zero, with a zero
`desired` counting as trivially satisfied.  This definition follows the
spec's words and exists only to be compared with `replicaSetReport`, which is
embedded from the source. -/
def claimedPercentage (observed desired : Int) : Int :=
  if desired = 0 then 100 else (min observed desired * 100).tdiv desired

/-- Shared `ObjectMeta` of the concrete replica-set examples. -/
def rsMeta : ObjectMeta := { name := "rs", labels := [] }

/-- The example replica-set name. -/
def rsName : String := "rs"

/-- Metadata requiring 50% readiness. -/
def meta50 : MetaMap := [(successFactorKey, "50")]

/-- A replica set with 10 desired and 100 observed replicas: the source's
inverted formula yields 10% for it. -/
def rsLagging : ReplicaSetObj :=
  { meta := rsMeta, specReplicas := 10, statusReplicas := 100, specRest := "" }

/-- A replica set with 10 desired and 5 observed replicas. -/
def rsObserved5 : ReplicaSetObj :=
  { meta := rsMeta, specReplicas := 10, statusReplicas := 5, specRest := "" }

/-- A replica set with 10 desired and 4 observed replicas. -/
def rsObserved4 : ReplicaSetObj :=
  { meta := rsMeta, specReplicas := 10, statusReplicas := 4, specRest := "" }

/-- A freshly created replica set: desired 3, observed still 0. -/
def rsFresh : ReplicaSetObj :=
  { meta := rsMeta, specReplicas := 3, statusReplicas := 0, specRest := "" }

/-- The error a real cluster returns for a duplicate create call. -/
def alreadyExistsErr : Err := "already exists"

/-- A declared deployment that is ready at one replica. -/
def deploymentExample : DeploymentObj :=
  { meta := { name := "web", labels := [] }
    specReplicas := 1
    specRest := ""
    updatedReplicas := 1
    availableReplicas := 1 }

/-- A managed deployment adapter whose cluster already holds exactly the
declared object: the existence-and-match check succeeds. -/
def deploymentAdapter : Deployment :=
  { deployment := deploymentExample
    client :=
      { getResult := fun _ => .ok deploymentExample
        createResult := fun _ => .error alreadyExistsErr } }

/-- A live deployment that drifted from `deploymentExample`: two desired
replicas instead of one. -/
def deploymentLive : DeploymentObj :=
  { deploymentExample with specReplicas := 2 }

/-- A managed deployment adapter whose cluster holds the drifted object. -/
def deploymentDriftAdapter : Deployment :=
  { deployment := deploymentExample
    client :=
      { getResult := fun _ => .ok deploymentLive
        createResult := fun _ => .error alreadyExistsErr } }

/-- The pre-existing variant bound to the same cluster as
`deploymentAdapter`. -/
def existingDeploymentExample : ExistingDeployment :=
  { name := "web", client := deploymentAdapter.client }

/-- The pre-existing variant bound to the same cluster as
`deploymentDriftAdapter`. -/
def existingDeploymentDrift : ExistingDeployment :=
  { name := "web", client := deploymentDriftAdapter.client }

/-- A declared service with an empty selector. -/
def serviceExample : ServiceObj :=
  { meta := { name := "svc", labels := [] }, selector := [], specRest := "" }

/-- An API client over an empty, fully enabled cluster. -/
def apiClientExample : APIClient :=
  { parseSelector := fun s => .ok s
    podsList := fun _ => .ok []
    jobsList := fun _ => .ok []
    replicaSetsList := fun _ => .ok []
    statefulSetsEnabled := true
    statefulSetsList := fun _ => .ok []
    petSetsList := fun _ => .ok [] }

/-- A managed service adapter whose cluster already holds exactly the
declared object. -/
def serviceAdapter : Service :=
  { service := serviceExample
    client :=
      { getResult := fun _ => .ok serviceExample
        createResult := fun _ => .error alreadyExistsErr }
    apiClient := apiClientExample }

/-- A live service that drifted from `serviceExample`: a different
selector. -/
def serviceLive : ServiceObj :=
  { serviceExample with selector := [("app", "web")] }

/-- A managed service adapter whose cluster holds the drifted object. -/
def serviceDriftAdapter : Service :=
  { service := serviceExample
    client :=
      { getResult := fun _ => .ok serviceLive
        createResult := fun _ => .error alreadyExistsErr }
    apiClient := apiClientExample }

/-- A managed replica-set adapter whose cluster holds a drifted object
(`rsObserved5` declared, `rsLagging` live — the spec replica counts agree but
the opaque spec payload differs). -/
def replicaSetDriftAdapter : ReplicaSet :=
  { replicaSet := rsObserved5
    client :=
      { getResult := fun _ => .ok { rsObserved5 with specRest := "v2" }
        createResult := fun _ => .error alreadyExistsErr } }

/-- The drifted live replica set fetched by `replicaSetDriftAdapter`. -/
def rsLive : ReplicaSetObj := { rsObserved5 with specRest := "v2" }

/-- A declared, bound persistent volume claim. -/
def pvcExample : PersistentVolumeClaimObj :=
  { meta := { name := "data", labels := [] }
    specRest := ""
    phase := ClaimPhase.bound }

/-- The drifted live claim: a different spec payload. -/
def pvcLive : PersistentVolumeClaimObj := { pvcExample with specRest := "v2" }

/-- A managed claim adapter whose cluster holds the drifted object. -/
def pvcDriftAdapter : PersistentVolumeClaim :=
  { persistentVolumeClaim := pvcExample
    client :=
      { getResult := fun _ => .ok pvcLive
        createResult := fun _ => .error alreadyExistsErr } }

/-- A pre-existing config-map adapter over an empty cluster: the get fails. -/
def existingConfigMapAbsent : ExistingConfigMap :=
  { name := "cfg"
    client :=
      { getResult := fun _ => .error ("configmap not found")
        createResult := fun o => .ok o } }

/-- C1: the claim states that `Deployment.Create`, like `Service.Create`,
skips the call to `Client.Create` when the existence/match check succeeds.
On a cluster already holding exactly the declared object the status check
succeeds for both adapters, yet `Deployment.Create`'s trace still contains a
mutating create call — the source logs "Skipping creation" and then falls
through to `Client.Create` unconditionally — while `Service.Create`'s trace
contains none. -/
theorem deployment_create_not_skipped :
    (Deployment.Status deploymentAdapter []).1.2 = none
    ∧ (Deployment.Create deploymentAdapter).2.any ClusterOp.isMutating = true
    ∧ (Service.Status serviceAdapter []).1.2 = none
    ∧ (Service.Create serviceAdapter).2.any ClusterOp.isMutating = false :=
  ⟨rfl, rfl, rfl, rfl⟩

/-- C2: the claim states that the report's `Blocks` field is true exactly when
the carried readiness percentage is strictly below the required percentage.
For a replica set whose report carries percentage 10 against a required 50,
the source still sets `Blocks` to false: both branches of its
`percentage >= successFactor` test return `Blocks: false`. -/
theorem replicaSetReport_blocks_false_below_needed :
    (replicaSetReport (fun _ => .ok rsLagging) rsName meta50).map
        DependencyReport.percentage = some 10
    ∧ (replicaSetReport (fun _ => .ok rsLagging) rsName meta50).map
        DependencyReport.needed = some 50
    ∧ (replicaSetReport (fun _ => .ok rsLagging) rsName meta50).map
        DependencyReport.blocks = some false :=
  ⟨rfl, rfl, rfl⟩

/-- C3: the claim states that the carried percentage equals
`min(observed, desired) * 100 / desired`.  For observed 5 and desired 10 that
formula yields 50, but the source computes
`*rs.Spec.Replicas * 100 / rs.Status.Replicas` — desired over observed — and
carries 200. -/
theorem replicaSetReport_percentage_inverted :
    (replicaSetReport (fun _ => .ok rsObserved5) rsName meta50).map
        DependencyReport.percentage = some 200
    ∧ claimedPercentage 5 10 = 50
    ∧ (200 : Int) ≠ 50 :=
  ⟨rfl, by decide, by decide⟩

/-- C6: for a replica set with 10 desired replicas and a required percentage
of 50, `replicaSetStatus` yields `Ready` at 5 observed replicas
(`5*100 = 10*50`, and equality does not block) and `NotReady` at 4 observed
replicas (`400 < 500`). -/
theorem replicaSetStatus_boundary_scenario :
    replicaSetStatus rsObserved5 meta50 = (ResourceStatus.Ready, none)
    ∧ replicaSetStatus rsObserved4 meta50 = (ResourceStatus.NotReady, none) :=
  ⟨rfl, rfl⟩

/-- C7: the claim states that computing the dependency report is total for
every combination of replica counts.  It is not: for a freshly created
replica set with 0 observed replicas the source divides
`*rs.Spec.Replicas * 100` by `rs.Status.Replicas` and panics (the embedding's
`none`), for any desired count and any parseable required percentage. -/
theorem replicaSetReport_divides_by_zero :
    replicaSetReport (fun _ => .ok rsFresh) rsName meta50 = none :=
  rfl

/-- C8: `Service.StatusIsCacheable` is constantly false, and
`ReplicaSet.StatusIsCacheable` returns true exactly when the metadata has no
entry for the success-factor key. -/
theorem statusIsCacheable_behaviour :
    (∀ (s : Service) (m : MetaMap), s.StatusIsCacheable m = false)
    ∧ (∀ (r : ReplicaSet) (m : MetaMap),
        r.StatusIsCacheable m = true ↔ lookupMeta m successFactorKey = none) := by
  constructor
  · intro s m
    rfl
  · intro r m
    unfold ReplicaSet.StatusIsCacheable
    cases h : lookupMeta m successFactorKey <;> simp [h]

/-- C4: for each managed adapter — Deployment, Service, ReplicaSet,
PersistentVolumeClaim — whenever the live object is fetched successfully but
fails the structural comparison with the declaration, `Status` returns
`WaitingForUpgrade` together with a non-nil error, and the call's trace
contains only read operations: the live object is never overwritten. -/
theorem managed_status_drift :
    (∀ (d : Deployment) (live : DeploymentObj) (m : MetaMap),
        d.client.getResult d.deployment.meta.name = Except.ok live →
        d.EqualToDefinition live = false →
        (d.Status m).1 =
          (ResourceStatus.WaitingForUpgrade, some waitingForUpgradeText)
        ∧ (d.Status m).2.all ClusterOp.isRead = true)
    ∧ (∀ (s : Service) (live : ServiceObj) (m : MetaMap),
        s.client.getResult s.service.meta.name = Except.ok live →
        s.EqualToDefinition live = false →
        (s.Status m).1 =
          (ResourceStatus.WaitingForUpgrade, some waitingForUpgradeText)
        ∧ (s.Status m).2.all ClusterOp.isRead = true)
    ∧ (∀ (r : ReplicaSet) (live : ReplicaSetObj) (m : MetaMap),
        r.client.getResult r.replicaSet.meta.name = Except.ok live →
        r.EqualToDefinition live = false →
        (r.Status m).1 =
          (ResourceStatus.WaitingForUpgrade, some waitingForUpgradeText)
        ∧ (r.Status m).2.all ClusterOp.isRead = true)
    ∧ (∀ (p : PersistentVolumeClaim) (live : PersistentVolumeClaimObj)
          (m : MetaMap),
        p.client.getResult p.persistentVolumeClaim.meta.name =
          Except.ok live →
        p.EqualToDefinition live = false →
        (p.Status m).1 =
          (ResourceStatus.WaitingForUpgrade, some waitingForUpgradeText)
        ∧ (p.Status m).2.all ClusterOp.isRead = true) := by
  refine ⟨?_, ?_, ?_, ?_⟩
  · intro d live m hget hne
    simp [Deployment.Status, hget, hne, ClusterOp.isRead]
  · intro s live m hget hne
    simp [Service.Status, hget, hne, ClusterOp.isRead]
  · intro r live m hget hne
    simp [ReplicaSet.Status, hget, hne, ClusterOp.isRead]
  · intro p live m hget hne
    simp [PersistentVolumeClaim.Status, hget, hne, ClusterOp.isRead]

/-- Witness for C4: concrete drifted adapters of all four kinds, with every
hypothesis discharged at the concrete input. -/
theorem managed_status_drift_witness :
    ((Deployment.Status deploymentDriftAdapter []).1 =
        (ResourceStatus.WaitingForUpgrade, some waitingForUpgradeText)
      ∧ (Deployment.Status deploymentDriftAdapter []).2.all
          ClusterOp.isRead = true)
    ∧ ((Service.Status serviceDriftAdapter []).1 =
        (ResourceStatus.WaitingForUpgrade, some waitingForUpgradeText)
      ∧ (Service.Status serviceDriftAdapter []).2.all ClusterOp.isRead = true)
    ∧ ((ReplicaSet.Status replicaSetDriftAdapter []).1 =
        (ResourceStatus.WaitingForUpgrade, some waitingForUpgradeText)
      ∧ (ReplicaSet.Status replicaSetDriftAdapter []).2.all
          ClusterOp.isRead = true)
    ∧ ((PersistentVolumeClaim.Status pvcDriftAdapter []).1 =
        (ResourceStatus.WaitingForUpgrade, some waitingForUpgradeText)
      ∧ (PersistentVolumeClaim.Status pvcDriftAdapter []).2.all
          ClusterOp.isRead = true) :=
  ⟨managed_status_drift.1 deploymentDriftAdapter deploymentLive [] rfl
      (by decide),
    managed_status_drift.2.1 serviceDriftAdapter serviceLive [] rfl
      (by decide),
    managed_status_drift.2.2.1 replicaSetDriftAdapter rsLive [] rfl
      (by decide),
    managed_status_drift.2.2.2 pvcDriftAdapter pvcLive [] rfl (by decide)⟩

/-- C5: the `Create` of a pre-existing adapter issues only read operations
against the cluster, returns `nil` exactly when the backing object is found
(the status query's fetch succeeds), and a non-nil error when it is absent.
Shown for `ExistingDeployment` (embedded from the source) and
`ExistingConfigMap` (whose `createExistingResource` helper is modelled from
the spec). -/
theorem existing_create_read_only :
    (∀ d : ExistingDeployment,
        (d.Create).2.all ClusterOp.isRead = true
        ∧ ((d.Create).1 = none ↔
            isOkResult (d.client.getResult d.name) = true))
    ∧ (∀ c : ExistingConfigMap,
        (c.Create).2.all ClusterOp.isRead = true
        ∧ ((c.Create).1 = none ↔
            isOkResult (c.client.getResult c.name) = true)) := by
  constructor
  · intro d
    cases hget : d.client.getResult d.name with
    | error e =>
      refine ⟨?_, ?_⟩
      · simp [ExistingDeployment.Create, ExistingDeployment.Status, hget,
          ClusterOp.isRead]
      · simp [ExistingDeployment.Create, ExistingDeployment.Status, hget,
          isOkResult]
    | ok live =>
      have hds : (deploymentStatus live).2 = none := by
        unfold deploymentStatus
        split <;> rfl
      refine ⟨?_, ?_⟩
      · simp [ExistingDeployment.Create, ExistingDeployment.Status, hget,
          hds, ClusterOp.isRead]
      · simp [ExistingDeployment.Create, ExistingDeployment.Status, hget,
          hds, isOkResult]
  · intro c
    cases hget : c.client.getResult c.name with
    | error e =>
      refine ⟨?_, ?_⟩
      · simp [ExistingConfigMap.Create, ExistingConfigMap.Status, hget,
          ClusterOp.isRead]
      · simp [ExistingConfigMap.Create, ExistingConfigMap.Status, hget,
          isOkResult]
    | ok live =>
      refine ⟨?_, ?_⟩
      · simp [ExistingConfigMap.Create, ExistingConfigMap.Status, hget,
          ClusterOp.isRead]
      · simp [ExistingConfigMap.Create, ExistingConfigMap.Status, hget,
          isOkResult]

/-- C9 counterexample: a deployment whose live object drifted from the
declaration.  The managed adapter reports `WaitingForUpgrade` with an error;
the pre-existing adapter, bound to the very same cluster state and metadata,
reports the live object's own status (`NotReady`) with no error — so the two
variants do not have identical status behaviour. -/
theorem managed_existing_status_differ :
    (Deployment.Status deploymentDriftAdapter []).1 ≠
      (ExistingDeployment.Status existingDeploymentDrift []).1 := by
  decide

/-- C9 (amended): the two variants agree whenever the fetch fails, and
whenever the fetched live object matches the managed variant's declaration;
the managed variant alone adds the drift check that yields
`WaitingForUpgrade`. -/
theorem managed_existing_status_agree_without_drift :
    ∀ (d : Deployment) (e : ExistingDeployment) (m : MetaMap),
      d.client.getResult = e.client.getResult →
      d.deployment.meta.name = e.name →
      (∀ live, e.client.getResult e.name = Except.ok live →
        d.EqualToDefinition live = true) →
      d.Status m = e.Status m := by
  intro d e m hclient hname hmatch
  simp only [Deployment.Status, ExistingDeployment.Status, hclient, hname]
  cases hget : e.client.getResult e.name with
  | error err => rfl
  | ok live =>
    have h := hmatch live hget
    simp [h]

/-- Witness for C9's amended claim: the matching deployment adapter and its
pre-existing twin agree on the same cluster. -/
theorem managed_existing_status_agree_witness :
    Deployment.Status deploymentAdapter [] =
      ExistingDeployment.Status existingDeploymentExample [] :=
  managed_existing_status_agree_without_drift deploymentAdapter
    existingDeploymentExample [] rfl rfl
    (fun live h => by
      have h2 : deploymentExample = live := Except.ok.inj h
      rw [← h2]
      decide)

/-- Every operation `resourceListStatus` issues is a read: one get per
wrapped resource, stopping at the first failure. -/
theorem resourceListStatus_reads (rs : List SubResource) :
    (resourceListStatus rs).2.all ClusterOp.isRead = true := by
  induction rs with
  | nil => rfl
  | cons r rest ih =>
    unfold resourceListStatus
    match hr : r.result with
    | (st, some e) => simp [hr, ClusterOp.isRead]
    | (st, none) =>
      by_cases hst : st = ResourceStatus.Ready
      · simp [hr, hst, ClusterOp.isRead, ih]
      · simp [hr, hst, ClusterOp.isRead]

/-- Every operation the selector loop of `serviceStatus` issues is a read:
list calls per kind plus the wrapped resources' status gets. -/
theorem serviceStatusLoop_reads (api : APIClient) :
    ∀ sel : List (String × String),
      (serviceStatusLoop api sel).2.all ClusterOp.isRead = true := by
  intro sel
  induction sel with
  | nil => rfl
  | cons kv rest ih =>
    obtain ⟨k, v⟩ := kv
    unfold serviceStatusLoop
    cases hp : api.parseSelector (k ++ "=" ++ v) with
    | error e => simp
    | ok sel' =>
      cases hpods : api.podsList sel' with
      | error e => simp [hp, hpods, ClusterOp.isRead]
      | ok pods =>
        cases hjobs : api.jobsList sel' with
        | error e => simp [hp, hpods, hjobs, ClusterOp.isRead]
        | ok jobs =>
          cases hrs : api.replicaSetsList sel' with
          | error e => simp [hp, hpods, hjobs, hrs, ClusterOp.isRead]
          | ok replicasets =>
            cases henb : api.statefulSetsEnabled with
            | true =>
              cases hx : api.statefulSetsList sel' with
              | error e =>
                simp [hp, hpods, hjobs, hrs, henb, hx, ClusterOp.isRead]
              | ok extras =>
                simp only [hp, hpods, hjobs, hrs, henb, hx, if_true,
                  Bool.false_eq_true, if_false]
                split
                · simp [ClusterOp.isRead, List.all_append,
                    resourceListStatus_reads]
                · simp [ClusterOp.isRead, List.all_append,
                    resourceListStatus_reads, ih]
            | false =>
              cases hx : api.petSetsList sel' with
              | error e =>
                simp [hp, hpods, hjobs, hrs, henb, hx, ClusterOp.isRead]
              | ok extras =>
                simp only [hp, hpods, hjobs, hrs, henb, hx, if_true,
                  Bool.false_eq_true, if_false]
                split
                · simp [ClusterOp.isRead, List.all_append,
                    resourceListStatus_reads]
                · simp [ClusterOp.isRead, List.all_append,
                    resourceListStatus_reads, ih]

/-- C10: every adapter's `Status`, managed or pre-existing, performs only
read operations (gets and lists) against the cluster — its trace never
contains a create, delete or update.  The adapter value itself is immutable
in the embedding, as it is for the Go value receivers of the source. -/
theorem adapter_status_reads_only :
    (∀ (s : Service) (m : MetaMap),
        (s.Status m).2.all ClusterOp.isRead = true)
    ∧ (∀ (r : ReplicaSet) (m : MetaMap),
        (r.Status m).2.all ClusterOp.isRead = true)
    ∧ (∀ (c : ConfigMap) (m : MetaMap),
        (c.Status m).2.all ClusterOp.isRead = true)
    ∧ (∀ (d : Deployment) (m : MetaMap),
        (d.Status m).2.all ClusterOp.isRead = true)
    ∧ (∀ (p : PersistentVolumeClaim) (m : MetaMap),
        (p.Status m).2.all ClusterOp.isRead = true)
    ∧ (∀ (d : ExistingDeployment) (m : MetaMap),
        (d.Status m).2.all ClusterOp.isRead = true)
    ∧ (∀ (c : ExistingConfigMap) (m : MetaMap),
        (c.Status m).2.all ClusterOp.isRead = true) := by
  refine ⟨?_, ?_, ?_, ?_, ?_, ?_, ?_⟩
  · intro s m
    cases hget : s.client.getResult s.service.meta.name with
    | error e => simp [Service.Status, hget, ClusterOp.isRead]
    | ok live =>
      by_cases hne : s.EqualToDefinition live = false
      · simp [Service.Status, hget, hne, ClusterOp.isRead]
      · simp [Service.Status, serviceStatus, hget, hne, ClusterOp.isRead,
          serviceStatusLoop_reads]
  · intro r m
    cases hget : r.client.getResult r.replicaSet.meta.name with
    | error e => simp [ReplicaSet.Status, hget, ClusterOp.isRead]
    | ok live =>
      by_cases hne : r.EqualToDefinition live = false
      · simp [ReplicaSet.Status, hget, hne, ClusterOp.isRead]
      · simp [ReplicaSet.Status, hget, hne, ClusterOp.isRead]
  · intro c m
    cases hget : c.client.getResult c.configMap.meta.name with
    | error e => simp [ConfigMap.Status, hget, ClusterOp.isRead]
    | ok live =>
      by_cases hne : c.EqualToDefinition live = false
      · simp [ConfigMap.Status, hget, hne, ClusterOp.isRead]
      · simp [ConfigMap.Status, hget, hne, ClusterOp.isRead]
  · intro d m
    cases hget : d.client.getResult d.deployment.meta.name with
    | error e => simp [Deployment.Status, hget, ClusterOp.isRead]
    | ok live =>
      by_cases hne : d.EqualToDefinition live = false
      · simp [Deployment.Status, hget, hne, ClusterOp.isRead]
      · simp [Deployment.Status, hget, hne, ClusterOp.isRead]
  · intro p m
    cases hget : p.client.getResult p.persistentVolumeClaim.meta.name with
    | error e =>
      simp [PersistentVolumeClaim.Status, hget, ClusterOp.isRead]
    | ok live =>
      by_cases hne : p.EqualToDefinition live = false
      · simp [PersistentVolumeClaim.Status, hget, hne, ClusterOp.isRead]
      · simp [PersistentVolumeClaim.Status, hget, hne, ClusterOp.isRead]
  · intro d m
    cases hget : d.client.getResult d.name with
    | error e => simp [ExistingDeployment.Status, hget, ClusterOp.isRead]
    | ok live => simp [ExistingDeployment.Status, hget, ClusterOp.isRead]
  · intro c m
    cases hget : c.client.getResult c.name with
    | error e => simp [ExistingConfigMap.Status, hget, ClusterOp.isRead]
    | ok live => simp [ExistingConfigMap.Status, hget, ClusterOp.isRead]
